import Mathlib

/-!
Shallow embedding of the resource-aware autoscaling subsystem of the
repository (packages/utils/src/internals/cGroupsVersion.ts and the
LocalEventManager that consumes it), together with theorems about the
claims of the specification.

Modelling conventions:
* JavaScript numbers are modelled as `ℚ` (the source only performs exact
  arithmetic on integer counter values in the scenarios the theorems
  exercise; float rounding is out of scope).
* A JS number that is non-finite (`NaN`, `±Infinity`) is modelled as
  `none : Option ℚ`.  The distinction between the non-finite values never
  reaches a modelled branch condition, so conflating them is sound here.
* JS strings are modelled as `List Char`; `trim`, `split(/\s+/)`,
  `split('\n')` and `startsWith` are reimplemented structurally below.
  The one divergence: `''.split(/\s+/)` is `['']` in JS and `[]` here —
  at each use site both give the same downstream outcome (`parts[0]` is
  `undefined`/absent either way, `''` fails the `'max'`/`'usage_usec'`
  comparisons exactly as the empty token list does).
* `readFile`/`access` effects are modelled by a `World` record holding the
  outcome of each filesystem probe the source performs; module-level
  mutable state is threaded explicitly through a `ProcState` record.
* Fallible code returns `Except Unit`, mirroring thrown exceptions.
-/

namespace Crawlee

/-- Decidable equality for `Except`, so that concrete program outcomes can
be compared by `decide`. -/
instance {ε α : Type} [DecidableEq ε] [DecidableEq α] : DecidableEq (Except ε α) := fun a b =>
  match a, b with
  | Except.error x, Except.error y =>
      if h : x = y then Decidable.isTrue (by rw [h]) else Decidable.isFalse (by simp [h])
  | Except.ok x, Except.ok y =>
      if h : x = y then Decidable.isTrue (by rw [h]) else Decidable.isFalse (by simp [h])
  | Except.error _, Except.ok _ => Decidable.isFalse (by simp)
  | Except.ok _, Except.error _ => Decidable.isFalse (by simp)

/-! ## JavaScript string/number primitives used by the source -/

/-- A JS string, modelled as its character list. -/
abbrev Str := List Char

/-- Model of JS `trim()`: strip whitespace from both ends. -/
def trimChars (cs : Str) : Str :=
  ((cs.dropWhile (fun c => c.isWhitespace)).reverse.dropWhile (fun c => c.isWhitespace)).reverse

/-- Accumulator worker for `tokens`: `acc` holds the current token
reversed. -/
def tokensAux : Str → Str → List Str
  | [], acc => if acc.isEmpty then [] else [acc.reverse]
  | c :: cs, acc =>
      if c.isWhitespace then
        if acc.isEmpty then tokensAux cs [] else acc.reverse :: tokensAux cs []
      else tokensAux cs (c :: acc)

/-- Model of `s.split(/\s+/)` (for strings without leading whitespace —
every use in the source is on a trimmed string or on a line starting with
a non-blank character): the whitespace-separated tokens. -/
def tokens (cs : Str) : List Str := tokensAux cs []

/-- Accumulator worker for `splitNl`. -/
def splitNlAux : Str → Str → List Str
  | [], acc => [acc.reverse]
  | c :: cs, acc =>
      if c = '\n' then acc.reverse :: splitNlAux cs [] else splitNlAux cs (c :: acc)

/-- Model of JS `split('\n')` (keeps empty pieces, as JS does). -/
def splitNl (cs : Str) : List Str := splitNlAux cs []

/-- Model of JS `startsWith`: `leadsWith pat cs` is true when `pat` is an
initial segment of `cs`. -/
def leadsWith : Str → Str → Bool
  | [], _ => true
  | _ :: _, [] => false
  | p :: ps, c :: cs => p = c && leadsWith ps cs

/-- Numeric value of a decimal digit character. -/
def digitVal (c : Char) : Nat := c.toNat - 48

/-- Value of a list of decimal digit characters, most significant first. -/
def natOfDigits (ds : List Char) : Nat :=
  ds.foldl (fun acc c => acc * 10 + digitVal c) 0

/-- Model of JavaScript `parseInt(s, 10)`: skip leading whitespace, read an
optional sign and then the longest prefix of decimal digits; `none` models
a `NaN` result (no digits at all).  Trailing garbage after the digits is
ignored, as in JS. -/
def jsParseInt (s : Str) : Option Int :=
  let cs := s.dropWhile (fun c => c.isWhitespace)
  match cs with
  | '-' :: rest =>
      let ds := rest.takeWhile (fun c => c.isDigit)
      if ds.isEmpty then none else some (-(natOfDigits ds : Int))
  | '+' :: rest =>
      let ds := rest.takeWhile (fun c => c.isDigit)
      if ds.isEmpty then none else some ((natOfDigits ds : Int))
  | _ =>
      let ds := cs.takeWhile (fun c => c.isDigit)
      if ds.isEmpty then none else some ((natOfDigits ds : Int))

/-- Value contributed by the fractional digits `ds` of a decimal literal. -/
def fracVal (ds : List Char) : ℚ :=
  (natOfDigits ds : ℚ) / ((10 : ℚ) ^ ds.length)

/-- Unsigned core of JavaScript `Number(...)` string conversion: decimal
digits with an optional fractional part, the whole string consumed.
Exponent, hexadecimal and `Infinity` forms are not modelled (no theorem
exercises them); `none` models a non-finite result. -/
def jsNumberCore (cs : Str) : Option ℚ :=
  let intPart := cs.takeWhile (fun c => c.isDigit)
  let rest := cs.dropWhile (fun c => c.isDigit)
  match rest with
  | [] => if intPart.isEmpty then none else some ((natOfDigits intPart : ℚ))
  | '.' :: fracs =>
      let fracPart := fracs.takeWhile (fun c => c.isDigit)
      let rest2 := fracs.dropWhile (fun c => c.isDigit)
      if rest2.isEmpty && !(intPart.isEmpty && fracPart.isEmpty) then
        some ((natOfDigits intPart : ℚ) + fracVal fracPart)
      else none
  | _ => none

/-- Model of JavaScript `Number(s)` for strings: the empty (or all-blank)
string converts to `0`, otherwise an optionally signed decimal literal;
`none` models `NaN`. -/
def jsNumber (s : Str) : Option ℚ :=
  let t := trimChars s
  if t.isEmpty then some 0
  else
    match t with
    | '-' :: rest => (jsNumberCore rest).map (fun q => -q)
    | '+' :: rest => jsNumberCore rest
    | cs => jsNumberCore cs

/-! ## Arithmetic on possibly-non-finite JS numbers -/

/-- JS addition; non-finite operands poison the result. -/
def jadd : Option ℚ → Option ℚ → Option ℚ
  | some a, some b => some (a + b)
  | _, _ => none

/-- JS subtraction; non-finite operands poison the result. -/
def jsub : Option ℚ → Option ℚ → Option ℚ
  | some a, some b => some (a - b)
  | _, _ => none

/-- JS multiplication; non-finite operands poison the result. -/
def jmul : Option ℚ → Option ℚ → Option ℚ
  | some a, some b => some (a * b)
  | _, _ => none

/-- JS division; a zero denominator yields a non-finite value in the
source (`±Infinity` or `NaN`), modelled by `none`. -/
def jdiv : Option ℚ → Option ℚ → Option ℚ
  | some a, some b => if b = 0 then none else some (a / b)
  | _, _ => none

/-- JS `>` comparison: `false` whenever an operand is `NaN`/non-finite. -/
def jgt : Option ℚ → Option ℚ → Bool
  | some a, some b => decide (b < a)
  | _, _ => false

/-! ## Data model -/

/-- The two control-group schema generations (`'V1' | 'V2'`). -/
inductive CgV where
  | V1
  | V2
deriving DecidableEq

/-- One entry of `os.cpus()[i].times` (Node: user, nice, sys, idle, irq). -/
structure CpuTimes where
  user : ℚ
  nice : ℚ
  sys : ℚ
  idle : ℚ
  irq : ℚ
deriving DecidableEq

/-- Sum of all five fields of `cpu.times`
(`Object.values(cpu.times).reduce((sum, num) => sum + num)`). -/
def timesTotal (t : CpuTimes) : ℚ := t.user + t.nice + t.sys + t.idle + t.irq

/-- An idle/total tick pair, as accumulated over all cores. -/
structure Ticks where
  idle : ℚ
  total : ℚ
deriving DecidableEq

/-- A cumulative CPU usage sample (`interface CpuSample`), both fields in
nanoseconds; `none` models a non-finite field. -/
structure CpuSample where
  containerUsage : Option ℚ
  systemUsage : Option ℚ
deriving DecidableEq

/-- Outcome of the readings the source performs in one `getCpuInfo` call:
the environment flags and the content (or read failure) of each file. -/
structure World where
  /-- `process.platform === 'linux' && !!process.env.AWS_LAMBDA_FUNCTION_MEMORY_SIZE` -/
  isLambda : Bool
  /-- result of `await isContainerised()` -/
  containerised : Bool
  /-- whether `access('/sys/fs/cgroup/memory/')` succeeds -/
  memDirAccessible : Bool
  /-- `readFile('/sys/fs/cgroup/cpu/cpu.cfs_quota_us')` -/
  quotaV1 : Except Unit Str
  /-- `readFile('/sys/fs/cgroup/cpu/cpu.cfs_period_us')` -/
  periodV1 : Except Unit Str
  /-- `readFile('/sys/fs/cgroup/cpu.max')` (both V2 quota and V2 period) -/
  cpuMaxV2 : Except Unit Str
  /-- `readFile('/sys/fs/cgroup/cpuacct/cpuacct.usage')` -/
  cpuacctUsageV1 : Except Unit Str
  /-- `readFile('/sys/fs/cgroup/cpu.stat')` -/
  cpuStatV2 : Except Unit Str
  /-- `readFile('/proc/stat')` -/
  procStat : Except Unit Str
  /-- `os.cpus()` -/
  cores : List CpuTimes

/-- The module-level mutable state of the source: the memoized cgroups
version (`_cgroupsVersion`, `undefined` before the first call), the
`previousTicks` record and the `previousSample` record. -/
structure ProcState where
  cgroupsVersionCache : Option CgV
  previousTicks : Ticks
  previousSample : CpuSample
deriving DecidableEq

/-- The state at module load: no cached version, zero ticks, zero sample. -/
def initialState : ProcState :=
  { cgroupsVersionCache := none
    previousTicks := { idle := 0, total := 0 }
    previousSample := { containerUsage := some 0, systemUsage := some 0 } }

/-! ## getCgroupsVersion -/

/-- Embedding of `getCgroupsVersion` (cGroupsVersion.ts lines 8-20).
Returns the version, the updated module state, and the number of
filesystem probes (`access` calls) performed, so that memoization is
observable.  `if (_cgroupsVersion)` is the `Option` test (`undefined` is
the only falsy value the cache can hold). -/
def getCgroupsVersion (w : World) (st : ProcState) : CgV × ProcState × Nat :=
  match st.cgroupsVersionCache with
  | some v => (v, st, 0)
  | none =>
      let v := if w.memDirAccessible then CgV.V1 else CgV.V2
      (v, { st with cgroupsVersionCache := some v }, 1)

/-! ## CPU sampler -/

/-- Embedding of `getCurrentCpuTicks` (lines 54-69): sum idle and total
ticks over all cores, subtract the module-level `previousTicks` baseline,
and return `1 - idleDelta / totalDelta`, or `0` when `totalTicksDelta` is
falsy.  Note the source never writes `previousTicks`; accordingly this
function only reads the baseline. -/
def getCurrentCpuTicks (previousTicks : Ticks) (cpusCores : List CpuTimes) : ℚ :=
  let ticks := cpusCores.foldl
    (fun acc cpu => Ticks.mk (acc.idle + cpu.idle) (acc.total + timesTotal cpu))
    (Ticks.mk 0 0)
  let idleTicksDelta := ticks.idle - previousTicks.idle
  let totalTicksDelta := ticks.total - previousTicks.total
  if totalTicksDelta = 0 then 0 else 1 - idleTicksDelta / totalTicksDelta

/-- Result of `getCpuQuota`: `null` (unlimited), a finite number, or `NaN`
(the source's `parseInt` returned `NaN`, which is neither `null` nor `-1`
and therefore flows on into the allowance arithmetic). -/
inductive QuotaResult where
  | null
  | num (n : Int)
  | nan
deriving DecidableEq

/-- The numeric value a `QuotaResult` contributes to `quota / period`. -/
def QuotaResult.toVal : QuotaResult → Option ℚ
  | QuotaResult.num n => some ((n : ℚ))
  | _ => none

/-- Embedding of `getCpuQuota` (lines 78-91).  V1: `parseInt` of the quota
file, `-1` mapped to `null`.  V2: first whitespace field of the `cpu.max`
file, `'max'` mapped to `null`, otherwise `parseInt`. -/
def getCpuQuota (cgroupsVersion : CgV) (w : World) : Except Unit QuotaResult :=
  match cgroupsVersion with
  | CgV.V1 =>
      match w.quotaV1 with
      | Except.error e => Except.error e
      | Except.ok quotaStr =>
          match jsParseInt (trimChars quotaStr) with
          | none => Except.ok QuotaResult.nan
          | some quota =>
              Except.ok (if quota = -1 then QuotaResult.null else QuotaResult.num quota)
  | CgV.V2 =>
      match w.cpuMaxV2 with
      | Except.error e => Except.error e
      | Except.ok maxStr =>
          let parts := tokens (trimChars maxStr)
          if parts.head? = some ['m', 'a', 'x'] then Except.ok QuotaResult.null
          else
            match parts.head? with
            | none => Except.ok QuotaResult.nan
            | some t =>
                match jsParseInt t with
                | none => Except.ok QuotaResult.nan
                | some q => Except.ok (QuotaResult.num q)

/-- Embedding of `getCpuPeriod` (lines 98-108).  `none` models a `NaN`
period (`parseInt` failed, or `parts[1]` is `undefined`). -/
def getCpuPeriod (cgroupsVersion : CgV) (w : World) : Except Unit (Option ℚ) :=
  match cgroupsVersion with
  | CgV.V1 =>
      match w.periodV1 with
      | Except.error e => Except.error e
      | Except.ok s => Except.ok ((jsParseInt (trimChars s)).map (fun n => ((n : ℚ))))
  | CgV.V2 =>
      match w.cpuMaxV2 with
      | Except.error e => Except.error e
      | Except.ok s =>
          match (tokens (trimChars s))[1]? with
          | none => Except.ok none
          | some t => Except.ok ((jsParseInt t).map (fun n => ((n : ℚ))))

/-- The `usage_usec` scan of `getContainerCpuUsage` (lines 123-130):
`usageUsec` starts at `0` and is overwritten (then the loop breaks) by the
first line whose first field is `usage_usec`; a matching line without a
second field gives `Number(undefined) = NaN`. -/
def usageUsecOf : List Str → Option ℚ
  | [] => some 0
  | line :: rest =>
      if (tokens (trimChars line)).head? = some ['u', 's', 'a', 'g', 'e', '_', 'u', 's', 'e', 'c'] then
        match (tokens (trimChars line))[1]? with
        | none => none
        | some t => jsNumber t
      else usageUsecOf rest

/-- Embedding of `getContainerCpuUsage` (lines 115-133).  V1 returns
`Number` of the trimmed file; V2 scans `cpu.stat` for `usage_usec` and
multiplies by 1000 (µs → ns). -/
def getContainerCpuUsage (cgroupsVersion : CgV) (w : World) : Except Unit (Option ℚ) :=
  match cgroupsVersion with
  | CgV.V1 =>
      match w.cpuacctUsageV1 with
      | Except.error e => Except.error e
      | Except.ok data => Except.ok (jsNumber (trimChars data))
  | CgV.V2 =>
      match w.cpuStatV2 with
      | Except.error e => Except.error e
      | Except.ok data => Except.ok (jmul (usageUsecOf (splitNl data)) (some 1000))

/-- Embedding of `getSystemCpuUsage` (lines 139-156): find the first line
of `/proc/stat` starting with `"cpu "`, sum `Number` of its fields 1..7,
convert clock ticks to nanoseconds (`* 1e9 / 100`); throw when no such
line exists. -/
def getSystemCpuUsage (w : World) : Except Unit (Option ℚ) :=
  match w.procStat with
  | Except.error e => Except.error e
  | Except.ok statData =>
      match (splitNl statData).find? (fun line => leadsWith ['c', 'p', 'u', ' '] line) with
      | none => Except.error ()
      | some line =>
          let parts := ((tokens line).drop 1).take 7
          let totalTicks := parts.foldl (fun acc part => jadd acc (jsNumber part)) (some 0)
          Except.ok (jdiv (jmul totalTicks (some 1000000000)) (some 100))

/-- Embedding of `sampleCpuUsage` (lines 168-174): both readings must
succeed (a rejected promise in `Promise.all` rejects the whole call). -/
def sampleCpuUsage (cGroupsVersion : CgV) (w : World) : Except Unit CpuSample :=
  match getContainerCpuUsage cGroupsVersion w, getSystemCpuUsage w with
  | Except.ok c, Except.ok s => Except.ok { containerUsage := c, systemUsage := s }
  | Except.error e, _ => Except.error e
  | _, Except.error e => Except.error e

/-- The finite-quota tail of `getCpuInfo` (lines 196-210): read the period,
compute `cpuAllowance = quota / period`, sample, compute the deltas against
`previousSample`, overwrite `previousSample`, and return
`((containerDelta / systemDelta) * numCpus * 100) / cpuAllowance`. -/
def allowanceBranch (w : World) (st : ProcState) (cgroupsVersion : CgV)
    (quotaVal : Option ℚ) : Except Unit (Option ℚ) × ProcState :=
  match getCpuPeriod cgroupsVersion w with
  | Except.error e => (Except.error e, st)
  | Except.ok period =>
      let cpuAllowance := jdiv quotaVal period
      match sampleCpuUsage cgroupsVersion w with
      | Except.error e => (Except.error e, st)
      | Except.ok sample =>
          let containerDelta := jsub sample.containerUsage st.previousSample.containerUsage
          let systemDelta := jsub sample.systemUsage st.previousSample.systemUsage
          let st2 := { st with previousSample := sample }
          let numCpus : ℚ := (w.cores.length : ℚ)
          (Except.ok
            (jdiv (jmul (jmul (jdiv containerDelta systemDelta) (some numCpus)) (some 100))
              cpuAllowance),
           st2)

/-- Embedding of `getCpuInfo` (lines 178-214).  The pair returned is the
call's outcome and the module state after the call. -/
def getCpuInfo (w : World) (st : ProcState) : Except Unit (Option ℚ) × ProcState :=
  if w.isLambda then
    (Except.ok (some (getCurrentCpuTicks st.previousTicks w.cores)), st)
  else if w.containerised then
    match getCgroupsVersion w st with
    | (cgroupsVersion, st1, _) =>
        match getCpuQuota cgroupsVersion w with
        | Except.error e => (Except.error e, st1)
        | Except.ok QuotaResult.null =>
            (Except.ok (some (getCurrentCpuTicks st1.previousTicks w.cores)), st1)
        | Except.ok q => allowanceBranch w st1 cgroupsVersion q.toVal
  else
    (Except.ok (some (getCurrentCpuTicks st.previousTicks w.cores)), st)


/-! ## Characterization lemmas (shared helpers) -/

theorem getCgroupsVersion_cached (w : World) (st : ProcState) (v : CgV)
    (h : st.cgroupsVersionCache = some v) : getCgroupsVersion w st = (v, st, 0) := by
  simp [getCgroupsVersion, h]

theorem getCgroupsVersion_probe (w : World) (st : ProcState)
    (h : st.cgroupsVersionCache = none) :
    getCgroupsVersion w st =
      ((if w.memDirAccessible then CgV.V1 else CgV.V2),
       { st with cgroupsVersionCache := some (if w.memDirAccessible then CgV.V1 else CgV.V2) },
       1) := by
  simp [getCgroupsVersion, h]

theorem getCgroupsVersion_previousTicks (w : World) (st : ProcState) :
    (getCgroupsVersion w st).2.1.previousTicks = st.previousTicks := by
  unfold getCgroupsVersion
  cases h : st.cgroupsVersionCache <;> simp

theorem getCgroupsVersion_previousSample (w : World) (st : ProcState) :
    (getCgroupsVersion w st).2.1.previousSample = st.previousSample := by
  unfold getCgroupsVersion
  cases h : st.cgroupsVersionCache <;> simp

theorem getCpuInfo_lambda (w : World) (st : ProcState) (h : w.isLambda = true) :
    getCpuInfo w st = (Except.ok (some (getCurrentCpuTicks st.previousTicks w.cores)), st) := by
  simp [getCpuInfo, h]

theorem getCpuInfo_bareMetal (w : World) (st : ProcState)
    (h1 : w.isLambda = false) (h2 : w.containerised = false) :
    getCpuInfo w st = (Except.ok (some (getCurrentCpuTicks st.previousTicks w.cores)), st) := by
  simp [getCpuInfo, h1, h2]

theorem getCpuInfo_quota_error (w : World) (st : ProcState)
    (h1 : w.isLambda = false) (h2 : w.containerised = true)
    (hq : getCpuQuota (getCgroupsVersion w st).1 w = Except.error ()) :
    getCpuInfo w st = (Except.error (), (getCgroupsVersion w st).2.1) := by
  simp only [getCpuInfo, h1, h2, Bool.false_eq_true, if_false, if_true]
  rcases hg : getCgroupsVersion w st with ⟨cgv, st1, k⟩
  rw [hg] at hq
  simp [hq]

theorem getCpuInfo_quota_null (w : World) (st : ProcState)
    (h1 : w.isLambda = false) (h2 : w.containerised = true)
    (hq : getCpuQuota (getCgroupsVersion w st).1 w = Except.ok QuotaResult.null) :
    getCpuInfo w st =
      (Except.ok (some (getCurrentCpuTicks st.previousTicks w.cores)),
       (getCgroupsVersion w st).2.1) := by
  simp only [getCpuInfo, h1, h2, Bool.false_eq_true, if_false, if_true]
  rcases hg : getCgroupsVersion w st with ⟨cgv, st1, k⟩
  rw [hg] at hq
  have hticks := getCgroupsVersion_previousTicks w st
  rw [hg] at hticks
  simp at hticks
  simp [hq, hticks]

theorem getCpuInfo_quota_num (w : World) (st : ProcState) (n : Int)
    (h1 : w.isLambda = false) (h2 : w.containerised = true)
    (hq : getCpuQuota (getCgroupsVersion w st).1 w = Except.ok (QuotaResult.num n)) :
    getCpuInfo w st =
      allowanceBranch w (getCgroupsVersion w st).2.1 (getCgroupsVersion w st).1
        (some ((n : ℚ))) := by
  simp only [getCpuInfo, h1, h2, Bool.false_eq_true, if_false, if_true]
  rcases hg : getCgroupsVersion w st with ⟨cgv, st1, k⟩
  rw [hg] at hq
  simp [hq, QuotaResult.toVal]

theorem sampleCpuUsage_ok (cgv : CgV) (w : World) (c s : Option ℚ)
    (hc : getContainerCpuUsage cgv w = Except.ok c)
    (hs : getSystemCpuUsage w = Except.ok s) :
    sampleCpuUsage cgv w = Except.ok { containerUsage := c, systemUsage := s } := by
  simp [sampleCpuUsage, hc, hs]

theorem allowanceBranch_ok (w : World) (st : ProcState) (cgv : CgV)
    (quotaVal period : Option ℚ) (sample : CpuSample)
    (hp : getCpuPeriod cgv w = Except.ok period)
    (hs : sampleCpuUsage cgv w = Except.ok sample) :
    allowanceBranch w st cgv quotaVal =
      (Except.ok
        (jdiv
          (jmul
            (jmul
              (jdiv (jsub sample.containerUsage st.previousSample.containerUsage)
                (jsub sample.systemUsage st.previousSample.systemUsage))
              (some ((w.cores.length : ℚ))))
            (some 100))
          (jdiv quotaVal period)),
       { st with previousSample := sample }) := by
  simp [allowanceBranch, hp, hs]

/-! ## LocalEventManager (system info aggregation) -/

/-- The fields `createCpuInfo` contributes to a snapshot (lines 274-286):
`none` models the empty object returned when the CPU sampler threw; the
pair is `(cpuCurrentUsage, isCpuOverloaded)`. -/
def createCpuInfo (maxUsedCpuRatio : ℚ) (res : Except Unit (Option ℚ)) :
    Option (Option ℚ × Bool) :=
  match res with
  | Except.ok usedCpuRatio => some (jmul usedCpuRatio (some 100), jgt usedCpuRatio (some maxUsedCpuRatio))
  | Except.error _ => none

/-- The field `createMemoryInfo` contributes to a snapshot (lines 295-307):
`mainProcessBytes + childProcessesBytes`, or nothing when the memory
sampler threw. -/
def createMemoryInfo (res : Except Unit (ℚ × ℚ)) : Option ℚ :=
  match res with
  | Except.ok memInfo => some (memInfo.1 + memInfo.2)
  | Except.error _ => none

/-- A (possibly partial) `SystemInfo` snapshot: `createdAt` is always
present; a sampler that failed contributes `none` (its spread added no
fields). -/
structure SystemInfo where
  createdAt : Nat
  cpu : Option (Option ℚ × Bool)
  memCurrentBytes : Option ℚ
deriving DecidableEq

/-- Embedding of `createSystemInfo` (lines 266-272): spread of `createdAt`
and the two samplers' field sets, each sampler's outcome given by its
`Except` result. -/
def createSystemInfo (now : Nat) (maxUsedCpuRatio : ℚ)
    (cpuRes : Except Unit (Option ℚ)) (memRes : Except Unit (ℚ × ℚ)) : SystemInfo :=
  { createdAt := now
    cpu := createCpuInfo maxUsedCpuRatio cpuRes
    memCurrentBytes := createMemoryInfo memRes }

/-! ## Emission scheduling (C8) -/

/-- Observable actions of one timer tick of the aggregator. -/
inductive Act where
  | sampleStart
  | sampleEnd
  | publish
  | scheduleNext
deriving DecidableEq

/-- The sampling work of `createSystemInfo` as a trace: sampling begins and
completes within the awaited call. -/
def createSystemInfoActs : List Act := [Act.sampleStart, Act.sampleEnd]

/-- Trace of `emitSystemInfoEvent` (lines 255-261), in the statement order
of the source: `await this.createSystemInfo(...)`, then
`this.events.emit(...)`, then `intervalCallback()`. -/
def emitSystemInfoEventActs : List Act :=
  createSystemInfoActs ++ [Act.publish] ++ [Act.scheduleNext]

/-- Modelled from the spec: `betterSetInterval` (an external collaborator,
not under src/) invokes the handler and arranges the next invocation only
once the handler has called the interval callback; the event loop being
single-threaded, the next handler invocation begins after the current
handler's trace has run to completion.  `runTicks n` is the resulting
trace of `n` consecutive ticks. -/
def runTicks : Nat → List Act
  | 0 => []
  | n + 1 => emitSystemInfoEventActs ++ runTicks n

/-- `noOverlapAux tr inFlight` checks that sampling periods never overlap
in `tr`: a `sampleStart` may occur only when no sampling is in flight. -/
def noOverlapAux : List Act → Nat → Bool
  | [], _ => true
  | Act.sampleStart :: r, 0 => noOverlapAux r 1
  | Act.sampleStart :: _, _ + 1 => false
  | Act.sampleEnd :: r, n + 1 => noOverlapAux r n
  | Act.sampleEnd :: _, 0 => false
  | _ :: r, n => noOverlapAux r n

/-! ## weightedAvg (autoscaling controller) -/

/-- Modelled from the spec: the implementation of `weightedAvg` is not under
src/ (only its unit tests are).  Per the spec, `weightedAvg(values,
weights) = Σ(value_i × weight_i) / Σ(weight_i)`, and the result is
undefined/`NaN` (modelled `none`) when the weight sum is zero (empty
history or all-zero weights). -/
def weightedAvg (arrValues arrWeights : List ℚ) : Option ℚ :=
  let pairs := arrValues.zip arrWeights
  let weightSum := (pairs.map (fun p => p.2)).sum
  if weightSum = 0 then none
  else some ((pairs.map (fun p => p.1 * p.2)).sum / weightSum)

/-! ## Claim C6 -/

/-- Claim C6: `getCgroupsVersion` returns V1 exactly when access to the V1
memory-accounting path succeeds and V2 when that access fails; after the
first call the result is memoized, so every subsequent call (under any
filesystem state) returns the same value and performs no new probe. -/
theorem c6_cgroups_version_memoized :
    (∀ (w : World) (st : ProcState), st.cgroupsVersionCache = none →
        (((getCgroupsVersion w st).1 = CgV.V1 ↔ w.memDirAccessible = true)
          ∧ (getCgroupsVersion w st).2.1.cgroupsVersionCache = some (getCgroupsVersion w st).1
          ∧ (getCgroupsVersion w st).2.2 = 1))
  ∧ (∀ (w : World) (st : ProcState) (v : CgV), st.cgroupsVersionCache = some v →
        getCgroupsVersion w st = (v, st, 0))
  ∧ (∀ (w w2 : World) (st : ProcState), st.cgroupsVersionCache = none →
        getCgroupsVersion w2 (getCgroupsVersion w st).2.1 =
          ((getCgroupsVersion w st).1, (getCgroupsVersion w st).2.1, 0)) := by
  refine ⟨?_, ?_, ?_⟩
  · intro w st h
    rw [getCgroupsVersion_probe w st h]
    cases hm : w.memDirAccessible <;> simp [hm]
  · intro w st v h
    exact getCgroupsVersion_cached w st v h
  · intro w w2 st h
    rw [getCgroupsVersion_probe w st h]
    exact getCgroupsVersion_cached _ _ _ rfl

/-- A world for the C6 witness with an accessible V1 marker directory. -/
def c6World : World :=
  { isLambda := false
    containerised := false
    memDirAccessible := true
    quotaV1 := Except.error ()
    periodV1 := Except.error ()
    cpuMaxV2 := Except.error ()
    cpuacctUsageV1 := Except.error ()
    cpuStatV2 := Except.error ()
    procStat := Except.error ()
    cores := [] }

/-- A second world for the C6 witness (V1 marker inaccessible). -/
def c6WorldB : World := { c6World with memDirAccessible := false }

/-- A module state for the C6 witness whose version cache is already
populated with V2. -/
def c6CachedState : ProcState := { initialState with cgroupsVersionCache := some CgV.V2 }

/-- Witness for C6: the first call on `c6World` resolves V1 and fills the
cache; a call on a cached state returns the cached value with no probe;
a second call after a first call returns the first call's result with no
probe, even under a different filesystem state. -/
theorem c6_cgroups_version_memoized_witness :
    ((getCgroupsVersion c6World initialState).1 = CgV.V1 ↔ c6World.memDirAccessible = true)
  ∧ getCgroupsVersion c6WorldB c6CachedState = (CgV.V2, c6CachedState, 0)
  ∧ getCgroupsVersion c6WorldB (getCgroupsVersion c6World initialState).2.1 =
      ((getCgroupsVersion c6World initialState).1,
       (getCgroupsVersion c6World initialState).2.1, 0) :=
  ⟨(c6_cgroups_version_memoized.1 c6World initialState rfl).1,
   c6_cgroups_version_memoized.2.1 c6WorldB c6CachedState CgV.V2 rfl,
   c6_cgroups_version_memoized.2.2 c6World c6WorldB initialState rfl⟩

/-! ## Claim C7 -/

/-- Claim C7: on a tick, a failing sampler is caught at the sampler
boundary: it contributes no fields to the snapshot, the other sampler's
fields are still computed from that sampler's own outcome alone, and the
snapshot is still assembled with `createdAt` set — sampler failures never
abort the tick (`createSystemInfo` is total). -/
theorem c7_partial_snapshot_on_sampler_failure :
    (∀ (now : Nat) (r : ℚ) (cpuRes : Except Unit (Option ℚ)) (memRes : Except Unit (ℚ × ℚ)),
        (createSystemInfo now r cpuRes memRes).createdAt = now)
  ∧ (∀ (now : Nat) (r : ℚ) (memRes : Except Unit (ℚ × ℚ)),
        (createSystemInfo now r (Except.error ()) memRes).cpu = none
          ∧ (createSystemInfo now r (Except.error ()) memRes).memCurrentBytes =
              createMemoryInfo memRes)
  ∧ (∀ (now : Nat) (r : ℚ) (cpuRes : Except Unit (Option ℚ)),
        (createSystemInfo now r cpuRes (Except.error ())).memCurrentBytes = none
          ∧ (createSystemInfo now r cpuRes (Except.error ())).cpu = createCpuInfo r cpuRes)
  ∧ (∀ (now : Nat) (r : ℚ) (u : Option ℚ) (m : ℚ × ℚ),
        createSystemInfo now r (Except.ok u) (Except.ok m) =
          { createdAt := now
            cpu := some (jmul u (some 100), jgt u (some r))
            memCurrentBytes := some (m.1 + m.2) }) := by
  refine ⟨fun now r cpuRes memRes => rfl, ?_, ?_, ?_⟩
  · intro now r memRes
    exact ⟨rfl, rfl⟩
  · intro now r cpuRes
    exact ⟨rfl, rfl⟩
  · intro now r u m
    rfl

/-! ## Claim C8 -/

/-- Claim C8: in the trace of any number of aggregator ticks, sampling
periods never overlap — a `sampleStart` occurs only when no sampling is in
flight, because `emitSystemInfoEvent` invokes the interval callback only
after its awaited sampling has completed and the snapshot was published. -/
theorem c8_no_overlapping_sampling (n : Nat) : noOverlapAux (runTicks n) 0 = true := by
  induction n with
  | zero => rfl
  | succ k ih =>
      simpa [runTicks, emitSystemInfoEventActs, createSystemInfoActs, noOverlapAux] using ih

/-! ## Claim C9 -/

/-- Claim C9: whenever the weight sum is nonzero (in particular positive),
`weightedAvg` equals the analytic weighted-average formula; whenever the
weight sum is zero — in particular for empty vectors or all-zero weight
vectors — it is undefined (`none`), never zero. -/
theorem c9_weighted_avg_spec :
    (∀ (vs ws : List ℚ), ((vs.zip ws).map (fun p => p.2)).sum ≠ 0 →
        weightedAvg vs ws =
          some (((vs.zip ws).map (fun p => p.1 * p.2)).sum /
            ((vs.zip ws).map (fun p => p.2)).sum))
  ∧ (∀ (vs ws : List ℚ), ((vs.zip ws).map (fun p => p.2)).sum = 0 →
        weightedAvg vs ws = none)
  ∧ (∀ (ws : List ℚ), weightedAvg [] ws = none)
  ∧ (∀ (vs ws : List ℚ), (∀ x, x ∈ ws → x = 0) → weightedAvg vs ws = none) := by
  refine ⟨?_, ?_, ?_, ?_⟩
  · intro vs ws h
    simp [weightedAvg, h]
  · intro vs ws h
    simp [weightedAvg, h]
  · intro ws
    simp [weightedAvg]
  · intro vs ws h
    have hz : ((vs.zip ws).map (fun p => p.2)).sum = 0 := by
      apply List.sum_eq_zero
      intro x hx
      rcases List.mem_map.mp hx with ⟨p, hp, hpx⟩
      exact hpx ▸ h p.2 (List.of_mem_zip hp).2
    simp [weightedAvg, hz]

/-- Witness for C9: the analytic-formula case on the concrete vectors from
the repository's unit tests, and the undefined cases for an empty history
and an all-zero weight vector. -/
theorem c9_weighted_avg_spec_witness :
    weightedAvg [29, 35, 89] [13, 91, 3] =
      some (((([(29 : ℚ), 35, 89].zip [(13 : ℚ), 91, 3]).map (fun p => p.1 * p.2)).sum) /
        ((([(29 : ℚ), 35, 89].zip [(13 : ℚ), 91, 3]).map (fun p => p.2)).sum))
  ∧ weightedAvg [] [] = none
  ∧ weightedAvg [1] [0] = none :=
  ⟨c9_weighted_avg_spec.1 [29, 35, 89] [13, 91, 3] (by norm_num)
  , c9_weighted_avg_spec.2.2.1 []
  , c9_weighted_avg_spec.2.2.2 [1] [0] (by norm_num)⟩

/-! ## Further branch lemmas for the containerized path -/

theorem getCpuInfo_quota_notNull (w : World) (st : ProcState) (q : QuotaResult)
    (h1 : w.isLambda = false) (h2 : w.containerised = true)
    (hq : getCpuQuota (getCgroupsVersion w st).1 w = Except.ok q)
    (hne : q ≠ QuotaResult.null) :
    getCpuInfo w st =
      allowanceBranch w (getCgroupsVersion w st).2.1 (getCgroupsVersion w st).1 q.toVal := by
  simp only [getCpuInfo, h1, h2, Bool.false_eq_true, if_false, if_true]
  rcases hg : getCgroupsVersion w st with ⟨cgv, st1, k⟩
  rw [hg] at hq
  cases q with
  | null => exact absurd rfl hne
  | num n => simp [hq]
  | nan => simp [hq]

theorem allowanceBranch_period_error (w : World) (st : ProcState) (cgv : CgV)
    (quotaVal : Option ℚ) (hp : getCpuPeriod cgv w = Except.error ()) :
    allowanceBranch w st cgv quotaVal = (Except.error (), st) := by
  simp [allowanceBranch, hp]

theorem allowanceBranch_sample_error (w : World) (st : ProcState) (cgv : CgV)
    (quotaVal period : Option ℚ)
    (hp : getCpuPeriod cgv w = Except.ok period)
    (hs : sampleCpuUsage cgv w = Except.error ()) :
    allowanceBranch w st cgv quotaVal = (Except.error (), st) := by
  simp [allowanceBranch, hp, hs]

theorem sampleCpuUsage_container_error (cgv : CgV) (w : World)
    (hc : getContainerCpuUsage cgv w = Except.error ()) :
    sampleCpuUsage cgv w = Except.error () := by
  unfold sampleCpuUsage
  rw [hc]
  cases hsy : getSystemCpuUsage w <;> rfl

theorem sampleCpuUsage_system_error (cgv : CgV) (w : World) (c : Option ℚ)
    (hc : getContainerCpuUsage cgv w = Except.ok c)
    (hs : getSystemCpuUsage w = Except.error ()) :
    sampleCpuUsage cgv w = Except.error () := by
  unfold sampleCpuUsage
  rw [hc, hs]

/-! ## Evaluation helpers for concrete worlds -/

theorem getContainerCpuUsage_v2_eval (w : World) (s : Str) (u : ℚ)
    (hw : w.cpuStatV2 = Except.ok s) (hu : usageUsecOf (splitNl s) = some u) :
    getContainerCpuUsage CgV.V2 w = Except.ok (some (u * 1000)) := by
  simp [getContainerCpuUsage, hw, hu, jmul]

theorem getSystemCpuUsage_eval (w : World) (s line : Str)
    (t1 t2 t3 t4 t5 t6 t7 : Str) (q1 q2 q3 q4 q5 q6 q7 : ℚ)
    (hw : w.procStat = Except.ok s)
    (hfind : (splitNl s).find? (fun l => leadsWith ['c', 'p', 'u', ' '] l) = some line)
    (hparts : ((tokens line).drop 1).take 7 = [t1, t2, t3, t4, t5, t6, t7])
    (h1 : jsNumber t1 = some q1) (h2 : jsNumber t2 = some q2) (h3 : jsNumber t3 = some q3)
    (h4 : jsNumber t4 = some q4) (h5 : jsNumber t5 = some q5) (h6 : jsNumber t6 = some q6)
    (h7 : jsNumber t7 = some q7) :
    getSystemCpuUsage w =
      Except.ok (some ((0 + q1 + q2 + q3 + q4 + q5 + q6 + q7) * 1000000000 / 100)) := by
  simp only [getSystemCpuUsage, hw, hfind, hparts]
  simp only [List.foldl_cons, List.foldl_nil, h1, h2, h3, h4, h5, h6, h7]
  simp only [jadd, jmul, jdiv]
  norm_num

/-! ## Claim C4 -/

/-- Full characterization of the containerized finite-quota path: deltas
against the stored previous sample, overwrite of the previous sample, and
the returned value. -/
theorem getCpuInfo_finite_spec
    (w : World) (st : ProcState) (n : Int) (p cu su pc ps : ℚ)
    (h1 : w.isLambda = false) (h2 : w.containerised = true)
    (hq : getCpuQuota (getCgroupsVersion w st).1 w = Except.ok (QuotaResult.num n))
    (hp : getCpuPeriod (getCgroupsVersion w st).1 w = Except.ok (some p))
    (hc : getContainerCpuUsage (getCgroupsVersion w st).1 w = Except.ok (some cu))
    (hs : getSystemCpuUsage w = Except.ok (some su))
    (hprev : st.previousSample = { containerUsage := some pc, systemUsage := some ps })
    (hsd : su - ps ≠ 0) (hpz : p ≠ 0) (hqp : (n : ℚ) / p ≠ 0) :
    getCpuInfo w st =
      (Except.ok (some ((cu - pc) / (su - ps) * ((w.cores.length : ℚ)) * 100 / ((n : ℚ) / p))),
       { (getCgroupsVersion w st).2.1 with
           previousSample := { containerUsage := some cu, systemUsage := some su } }) := by
  rw [getCpuInfo_quota_num w st n h1 h2 hq]
  rw [allowanceBranch_ok w _ _ _ (some p) _ hp (sampleCpuUsage_ok _ _ _ _ hc hs)]
  have hps : (getCgroupsVersion w st).2.1.previousSample = st.previousSample :=
    getCgroupsVersion_previousSample w st
  rw [hps, hprev]
  simp [jsub, jdiv, jmul, hsd, hpz, hqp]

/-- Claim C4: a containerized `getCpuInfo` call with a finite quota `n` and
period `p` computes container and system deltas against the stored
previous sample, overwrites the previous sample with the new one, and
returns exactly `(containerDelta / systemDelta) × numberOfCores × 100 /
(n / p)`; with allowance `n / p = 2` this is
`(containerDelta / systemDelta) × numCpus × 100 / 2` exactly. -/
theorem c4_finite_quota_formula
    (w : World) (st : ProcState) (n : Int) (p cu su pc ps : ℚ)
    (h1 : w.isLambda = false) (h2 : w.containerised = true)
    (hq : getCpuQuota (getCgroupsVersion w st).1 w = Except.ok (QuotaResult.num n))
    (hp : getCpuPeriod (getCgroupsVersion w st).1 w = Except.ok (some p))
    (hc : getContainerCpuUsage (getCgroupsVersion w st).1 w = Except.ok (some cu))
    (hs : getSystemCpuUsage w = Except.ok (some su))
    (hprev : st.previousSample = { containerUsage := some pc, systemUsage := some ps })
    (hsd : su - ps ≠ 0) (hpz : p ≠ 0) (hqp : (n : ℚ) / p ≠ 0) :
    getCpuInfo w st =
      (Except.ok (some ((cu - pc) / (su - ps) * ((w.cores.length : ℚ)) * 100 / ((n : ℚ) / p))),
       { (getCgroupsVersion w st).2.1 with
           previousSample := { containerUsage := some cu, systemUsage := some su } }) :=
  getCpuInfo_finite_spec w st n p cu su pc ps h1 h2 hq hp hc hs hprev hsd hpz hqp

/-- The world for the C4 witness: containerized V2 host, `cpu.max` =
`200000 100000` (allowance 2), `cpu.stat` usage 4000000 µs, aggregate
`/proc/stat` ticks 400, two cores. -/
def c4World : World :=
  { isLambda := false
    containerised := true
    memDirAccessible := false
    quotaV1 := Except.error ()
    periodV1 := Except.error ()
    cpuMaxV2 := Except.ok "200000 100000".toList
    cpuacctUsageV1 := Except.error ()
    cpuStatV2 := Except.ok "usage_usec 4000000".toList
    procStat := Except.ok "cpu 400 0 0 0 0 0 0".toList
    cores := [{ user := 100, nice := 0, sys := 0, idle := 100, irq := 0 },
              { user := 100, nice := 0, sys := 0, idle := 100, irq := 0 }] }

/-- The module state before the C4 witness call: version already cached,
previous sample (1e9, 2e9) ns. -/
def c4State : ProcState :=
  { cgroupsVersionCache := some CgV.V2
    previousTicks := { idle := 0, total := 0 }
    previousSample := { containerUsage := some 1000000000, systemUsage := some 2000000000 } }

/-- The world of the first of the two consecutive C4 calls: the same host
earlier, with cumulative counters `usage_usec 1000000` and 200 aggregate
ticks. -/
def c4WorldFirst : World :=
  { c4World with
      cpuStatV2 := Except.ok "usage_usec 1000000".toList
      procStat := Except.ok "cpu 200 0 0 0 0 0 0".toList }

/-- Witness for C4, scenario B: a first call on `c4WorldFirst` from the
zero-valued initial state leaves the module in exactly `c4State`; the
second consecutive call on `c4World` then returns
`(3e9 / 2e9) × 2 × 100 / 2 = 150` and overwrites the previous sample with
the new cumulative readings. -/
theorem c4_finite_quota_formula_witness :
    (getCpuInfo c4WorldFirst initialState).2 = c4State
  ∧ getCpuInfo c4World c4State =
      (Except.ok (some 150),
       { c4State with
           previousSample := { containerUsage := some 4000000000, systemUsage := some 4000000000 } }) := by
  have hc1 : getContainerCpuUsage (getCgroupsVersion c4WorldFirst initialState).1 c4WorldFirst =
      Except.ok (some 1000000000) := by
    have h := getContainerCpuUsage_v2_eval c4WorldFirst ("usage_usec 1000000".toList)
      ((1000000 : Nat) : ℚ) rfl (by decide)
    rw [show (getCgroupsVersion c4WorldFirst initialState).1 = CgV.V2 from rfl, h]
    norm_num
  have hs1 : getSystemCpuUsage c4WorldFirst = Except.ok (some 2000000000) := by
    have h := getSystemCpuUsage_eval c4WorldFirst ("cpu 200 0 0 0 0 0 0".toList)
      ("cpu 200 0 0 0 0 0 0".toList)
      ("200".toList) ("0".toList) ("0".toList) ("0".toList) ("0".toList) ("0".toList)
      ("0".toList) 200 0 0 0 0 0 0
      rfl (by decide) (by decide) (by decide) (by decide) (by decide) (by decide)
      (by decide) (by decide) (by decide)
    rw [h]
    norm_num
  have hfirst := c4_finite_quota_formula c4WorldFirst initialState 200000 100000
    1000000000 2000000000 0 0 rfl rfl (by decide) (by decide) hc1 hs1 rfl
    (by norm_num) (by norm_num) (by norm_num)
  refine ⟨by rw [hfirst]; rfl, ?_⟩
  have hc : getContainerCpuUsage (getCgroupsVersion c4World c4State).1 c4World =
      Except.ok (some 4000000000) := by
    have h := getContainerCpuUsage_v2_eval c4World ("usage_usec 4000000".toList)
      ((4000000 : Nat) : ℚ) rfl (by decide)
    rw [show (getCgroupsVersion c4World c4State).1 = CgV.V2 from rfl, h]
    norm_num
  have hs : getSystemCpuUsage c4World = Except.ok (some 4000000000) := by
    have h := getSystemCpuUsage_eval c4World ("cpu 400 0 0 0 0 0 0".toList)
      ("cpu 400 0 0 0 0 0 0".toList)
      ("400".toList) ("0".toList) ("0".toList) ("0".toList) ("0".toList) ("0".toList)
      ("0".toList) 400 0 0 0 0 0 0
      rfl (by decide) (by decide) (by decide) (by decide) (by decide) (by decide)
      (by decide) (by decide) (by decide)
    rw [h]
    norm_num
  have h := c4_finite_quota_formula c4World c4State 200000 100000 4000000000 4000000000
    1000000000 2000000000 rfl rfl (by decide) (by decide) hc hs rfl
    (by norm_num) (by norm_num) (by norm_num)
  rw [h, getCgroupsVersion_cached c4World c4State CgV.V2 rfl]
  norm_num [c4World]

/-! ## Claim C10 -/

/-- Claim C10: the process-wide `previousSample` singleton starts
zero-valued and is overwritten exactly by the containerized finite-quota
sampling path: every call through the serverless (lambda), bare-metal, or
unlimited-quota branch — and every containerized call that fails before
sampling completes — leaves it unchanged, while a finite-quota call whose
sampling succeeds sets it to the new sample. -/
theorem c10_previous_sample_frame :
    initialState.previousSample = { containerUsage := some 0, systemUsage := some 0 }
  ∧ (∀ (w : World) (st : ProcState), w.isLambda = true → (getCpuInfo w st).2 = st)
  ∧ (∀ (w : World) (st : ProcState), w.isLambda = false → w.containerised = false →
        (getCpuInfo w st).2 = st)
  ∧ (∀ (w : World) (st : ProcState), w.isLambda = false → w.containerised = true →
        getCpuQuota (getCgroupsVersion w st).1 w = Except.ok QuotaResult.null →
        (getCpuInfo w st).2.previousSample = st.previousSample)
  ∧ (∀ (w : World) (st : ProcState), w.isLambda = false → w.containerised = true →
        getCpuQuota (getCgroupsVersion w st).1 w = Except.error () →
        (getCpuInfo w st).2.previousSample = st.previousSample)
  ∧ (∀ (w : World) (st : ProcState) (q : QuotaResult),
        w.isLambda = false → w.containerised = true →
        getCpuQuota (getCgroupsVersion w st).1 w = Except.ok q → q ≠ QuotaResult.null →
        getCpuPeriod (getCgroupsVersion w st).1 w = Except.error () →
        (getCpuInfo w st).2.previousSample = st.previousSample)
  ∧ (∀ (w : World) (st : ProcState) (q : QuotaResult) (period : Option ℚ),
        w.isLambda = false → w.containerised = true →
        getCpuQuota (getCgroupsVersion w st).1 w = Except.ok q → q ≠ QuotaResult.null →
        getCpuPeriod (getCgroupsVersion w st).1 w = Except.ok period →
        sampleCpuUsage (getCgroupsVersion w st).1 w = Except.error () →
        (getCpuInfo w st).2.previousSample = st.previousSample)
  ∧ (∀ (w : World) (st : ProcState) (q : QuotaResult) (period : Option ℚ) (sample : CpuSample),
        w.isLambda = false → w.containerised = true →
        getCpuQuota (getCgroupsVersion w st).1 w = Except.ok q → q ≠ QuotaResult.null →
        getCpuPeriod (getCgroupsVersion w st).1 w = Except.ok period →
        sampleCpuUsage (getCgroupsVersion w st).1 w = Except.ok sample →
        (getCpuInfo w st).2.previousSample = sample) := by
  refine ⟨rfl, ?_, ?_, ?_, ?_, ?_, ?_, ?_⟩
  · intro w st h
    rw [getCpuInfo_lambda w st h]
  · intro w st h1 h2
    rw [getCpuInfo_bareMetal w st h1 h2]
  · intro w st h1 h2 hq
    rw [getCpuInfo_quota_null w st h1 h2 hq]
    exact getCgroupsVersion_previousSample w st
  · intro w st h1 h2 hq
    rw [getCpuInfo_quota_error w st h1 h2 hq]
    exact getCgroupsVersion_previousSample w st
  · intro w st q h1 h2 hq hne hp
    rw [getCpuInfo_quota_notNull w st q h1 h2 hq hne,
      allowanceBranch_period_error w _ _ _ hp]
    exact getCgroupsVersion_previousSample w st
  · intro w st q period h1 h2 hq hne hp hs
    rw [getCpuInfo_quota_notNull w st q h1 h2 hq hne,
      allowanceBranch_sample_error w _ _ _ period hp hs]
    exact getCgroupsVersion_previousSample w st
  · intro w st q period sample h1 h2 hq hne hp hs
    rw [getCpuInfo_quota_notNull w st q h1 h2 hq hne,
      allowanceBranch_ok w _ _ _ period sample hp hs]

/-- A serverless-sandbox world for the C10 witness. -/
def c10WorldLambda : World :=
  { isLambda := true
    containerised := false
    memDirAccessible := false
    quotaV1 := Except.error ()
    periodV1 := Except.error ()
    cpuMaxV2 := Except.error ()
    cpuacctUsageV1 := Except.error ()
    cpuStatV2 := Except.error ()
    procStat := Except.error ()
    cores := [{ user := 90, nice := 0, sys := 0, idle := 10, irq := 0 }] }

/-- A containerized world with an unlimited V2 quota for the C10 witness. -/
def c10WorldUnlimited : World :=
  { c10WorldLambda with
      isLambda := false
      containerised := true
      cpuMaxV2 := Except.ok "max 100000".toList }

/-- A containerized world with a finite V2 quota for the C10 witness. -/
def c10WorldFinite : World :=
  { c10WorldLambda with
      isLambda := false
      containerised := true
      cpuMaxV2 := Except.ok "300000 100000".toList
      cpuStatV2 := Except.ok "usage_usec 5000000".toList
      procStat := Except.ok "cpu 600 0 0 0 0 0 0".toList }

/-- The module state before the C10 witness's finite-quota call. -/
def c10State : ProcState :=
  { cgroupsVersionCache := some CgV.V2
    previousTicks := { idle := 0, total := 0 }
    previousSample := { containerUsage := some 7, systemUsage := some 11 } }

/-- Witness for C10: a lambda call and an unlimited-quota containerized
call leave `previousSample` unchanged; a successful finite-quota call
overwrites it with the new sample. -/
theorem c10_previous_sample_frame_witness :
    (getCpuInfo c10WorldLambda c10State).2 = c10State
  ∧ (getCpuInfo c10WorldUnlimited c10State).2.previousSample = c10State.previousSample
  ∧ (getCpuInfo c10WorldFinite c10State).2.previousSample =
      { containerUsage := some 5000000000, systemUsage := some 6000000000 } := by
  refine ⟨c10_previous_sample_frame.2.1 c10WorldLambda c10State rfl, ?_, ?_⟩
  · exact c10_previous_sample_frame.2.2.2.1 c10WorldUnlimited c10State rfl rfl (by decide)
  · have hc : getContainerCpuUsage (getCgroupsVersion c10WorldFinite c10State).1 c10WorldFinite =
        Except.ok (some 5000000000) := by
      have h := getContainerCpuUsage_v2_eval c10WorldFinite ("usage_usec 5000000".toList)
        ((5000000 : Nat) : ℚ) rfl (by decide)
      rw [show (getCgroupsVersion c10WorldFinite c10State).1 = CgV.V2 from rfl, h]
      norm_num
    have hsy : getSystemCpuUsage c10WorldFinite = Except.ok (some 6000000000) := by
      have h := getSystemCpuUsage_eval c10WorldFinite ("cpu 600 0 0 0 0 0 0".toList)
        ("cpu 600 0 0 0 0 0 0".toList)
        ("600".toList) ("0".toList) ("0".toList) ("0".toList) ("0".toList) ("0".toList)
        ("0".toList) 600 0 0 0 0 0 0
        rfl (by decide) (by decide) (by decide) (by decide) (by decide) (by decide)
        (by decide) (by decide) (by decide)
      rw [h]
      norm_num
    exact c10_previous_sample_frame.2.2.2.2.2.2.2 c10WorldFinite c10State
      (QuotaResult.num 300000) (some 100000)
      { containerUsage := some 5000000000, systemUsage := some 6000000000 }
      rfl rfl (by decide) (by decide) (by decide)
      (sampleCpuUsage_ok _ _ _ _ hc hsy)

/-! ## Claim C5 -/

/-- Claim C5: `getCpuQuota` yields "unlimited" (`null`) exactly for a V1
quota parsing to `-1` or a V2 first field equal to the literal `max`, and
yields the parsed integer otherwise; and `getCpuInfo` on a containerized
host falls back to the host-tick computation — leaving the module state
untouched except for the version cache — exactly when the quota is `null`,
while a parsed integer quota dispatches to the allowance computation. -/
theorem c5_unlimited_quota_fallback :
    (∀ (w : World) (s : Str), w.quotaV1 = Except.ok s →
        jsParseInt (trimChars s) = some (-1) →
        getCpuQuota CgV.V1 w = Except.ok QuotaResult.null)
  ∧ (∀ (w : World) (s : Str) (n : Int), w.quotaV1 = Except.ok s →
        jsParseInt (trimChars s) = some n → n ≠ -1 →
        getCpuQuota CgV.V1 w = Except.ok (QuotaResult.num n))
  ∧ (∀ (w : World) (s : Str), w.cpuMaxV2 = Except.ok s →
        (tokens (trimChars s)).head? = some ['m', 'a', 'x'] →
        getCpuQuota CgV.V2 w = Except.ok QuotaResult.null)
  ∧ (∀ (w : World) (s t : Str) (n : Int), w.cpuMaxV2 = Except.ok s →
        (tokens (trimChars s)).head? = some t → t ≠ ['m', 'a', 'x'] →
        jsParseInt t = some n →
        getCpuQuota CgV.V2 w = Except.ok (QuotaResult.num n))
  ∧ (∀ (w : World) (st : ProcState), w.isLambda = false → w.containerised = true →
        getCpuQuota (getCgroupsVersion w st).1 w = Except.ok QuotaResult.null →
        getCpuInfo w st =
          (Except.ok (some (getCurrentCpuTicks st.previousTicks w.cores)),
           (getCgroupsVersion w st).2.1))
  ∧ (∀ (w : World) (st : ProcState) (n : Int), w.isLambda = false → w.containerised = true →
        getCpuQuota (getCgroupsVersion w st).1 w = Except.ok (QuotaResult.num n) →
        getCpuInfo w st =
          allowanceBranch w (getCgroupsVersion w st).2.1 (getCgroupsVersion w st).1
            (some ((n : ℚ)))) := by
  refine ⟨?_, ?_, ?_, ?_, ?_, ?_⟩
  · intro w s hw hp
    simp [getCpuQuota, hw, hp]
  · intro w s n hw hp hn
    simp [getCpuQuota, hw, hp, hn]
  · intro w s hw hh
    simp [getCpuQuota, hw, hh]
  · intro w s t n hw hh ht hp
    simp [getCpuQuota, hw, hh, ht, hp]
  · intro w st h1 h2 hq
    exact getCpuInfo_quota_null w st h1 h2 hq
  · intro w st n h1 h2 hq
    exact getCpuInfo_quota_num w st n h1 h2 hq

/-- A world whose V1 quota file holds `-1` (unlimited). -/
def c5WorldV1Unlimited : World :=
  { isLambda := false
    containerised := false
    memDirAccessible := true
    quotaV1 := Except.ok "-1\n".toList
    periodV1 := Except.error ()
    cpuMaxV2 := Except.error ()
    cpuacctUsageV1 := Except.error ()
    cpuStatV2 := Except.error ()
    procStat := Except.error ()
    cores := [] }

/-- A world whose V1 quota file holds `100000`. -/
def c5WorldV1Finite : World := { c5WorldV1Unlimited with quotaV1 := Except.ok "100000\n".toList }

/-- A containerized world whose V2 `cpu.max` holds `max 100000`. -/
def c5WorldV2Unlimited : World :=
  { c5WorldV1Unlimited with
      containerised := true
      memDirAccessible := false
      quotaV1 := Except.error ()
      cpuMaxV2 := Except.ok "max 100000".toList
      cores := [{ user := 30, nice := 0, sys := 0, idle := 70, irq := 0 }] }

/-- A containerized world whose V2 `cpu.max` holds `200000 100000`. -/
def c5WorldV2Finite : World :=
  { c5WorldV2Unlimited with cpuMaxV2 := Except.ok "200000 100000".toList }

/-- Witness for C5: `-1` and `max` parse to unlimited, `100000` and
`200000` parse to themselves; the unlimited containerized call returns the
host-tick value and the finite one dispatches to the allowance branch. -/
theorem c5_unlimited_quota_fallback_witness :
    getCpuQuota CgV.V1 c5WorldV1Unlimited = Except.ok QuotaResult.null
  ∧ getCpuQuota CgV.V1 c5WorldV1Finite = Except.ok (QuotaResult.num 100000)
  ∧ getCpuQuota CgV.V2 c5WorldV2Unlimited = Except.ok QuotaResult.null
  ∧ getCpuQuota CgV.V2 c5WorldV2Finite = Except.ok (QuotaResult.num 200000)
  ∧ getCpuInfo c5WorldV2Unlimited initialState =
      (Except.ok (some (getCurrentCpuTicks initialState.previousTicks c5WorldV2Unlimited.cores)),
       (getCgroupsVersion c5WorldV2Unlimited initialState).2.1)
  ∧ getCpuInfo c5WorldV2Finite initialState =
      allowanceBranch c5WorldV2Finite (getCgroupsVersion c5WorldV2Finite initialState).2.1
        (getCgroupsVersion c5WorldV2Finite initialState).1 (some ((200000 : Int) : ℚ)) :=
  ⟨c5_unlimited_quota_fallback.1 c5WorldV1Unlimited ("-1\n".toList) rfl (by decide),
   c5_unlimited_quota_fallback.2.1 c5WorldV1Finite ("100000\n".toList) 100000 rfl (by decide)
     (by decide),
   c5_unlimited_quota_fallback.2.2.1 c5WorldV2Unlimited ("max 100000".toList) rfl (by decide),
   c5_unlimited_quota_fallback.2.2.2.1 c5WorldV2Finite ("200000 100000".toList)
     ("200000".toList) 200000 rfl (by decide) (by decide) (by decide),
   c5_unlimited_quota_fallback.2.2.2.2.1 c5WorldV2Unlimited initialState rfl rfl (by decide),
   c5_unlimited_quota_fallback.2.2.2.2.2 c5WorldV2Finite initialState 200000 rfl rfl (by decide)⟩

/-! ## Claim C3 -/

/-- If no line of the V2 `cpu.stat` file has first field `usage_usec`, the
scan leaves the usage at its initial `0`. -/
theorem usageUsecOf_no_match (lines : List Str)
    (h : ∀ line, line ∈ lines →
      (tokens (trimChars line)).head? ≠ some ['u', 's', 'a', 'g', 'e', '_', 'u', 's', 'e', 'c']) :
    usageUsecOf lines = some 0 := by
  induction lines with
  | nil => rfl
  | cons l ls ih =>
      simp only [usageUsecOf]
      rw [if_neg (h l (List.mem_cons_self l ls))]
      exact ih (fun line hl => h line (List.mem_cons_of_mem _ hl))

/-- A containerized V2 world whose `cpu.stat` lacks the `usage_usec` key
but is otherwise readable. -/
def c3StatWorld : World :=
  { isLambda := false
    containerised := true
    memDirAccessible := false
    quotaV1 := Except.error ()
    periodV1 := Except.error ()
    cpuMaxV2 := Except.ok "200000 100000".toList
    cpuacctUsageV1 := Except.error ()
    cpuStatV2 := Except.ok "nr_periods 4\nnr_throttled 0".toList
    procStat := Except.ok "cpu 400 0 0 0 0 0 0".toList
    cores := [{ user := 100, nice := 0, sys := 0, idle := 100, irq := 0 }] }

/-- Counterexample to C3 as stated: for a V2 `cpu.stat` file that lacks the
`usage_usec` key, `getContainerCpuUsage` does not fail — it silently
returns the usage value `0`, exactly what the claim says can never
happen. -/
theorem c3_missing_usage_usec_counterexample :
    getContainerCpuUsage CgV.V2 c3StatWorld = Except.ok (some 0)
  ∧ getContainerCpuUsage CgV.V2 c3StatWorld ≠ Except.error () := by
  have h := getContainerCpuUsage_v2_eval c3StatWorld ("nr_periods 4\nnr_throttled 0".toList)
    0 rfl (by decide)
  rw [h]
  refine ⟨by norm_num, by simp⟩

/-- Claim C3 (amended): every read failure during quota, period, or usage
reading in the containerized branch propagates as a sampler-level error,
as does a system-wide stat file lacking the aggregate `cpu` line — but a
V2 `cpu.stat` file lacking the `usage_usec` key is not an error: the
container usage silently defaults to `0`. -/
theorem c3_read_failures_propagate :
    (∀ (w : World), w.quotaV1 = Except.error () → getCpuQuota CgV.V1 w = Except.error ())
  ∧ (∀ (w : World), w.cpuMaxV2 = Except.error () → getCpuQuota CgV.V2 w = Except.error ())
  ∧ (∀ (w : World), w.periodV1 = Except.error () → getCpuPeriod CgV.V1 w = Except.error ())
  ∧ (∀ (w : World), w.cpuMaxV2 = Except.error () → getCpuPeriod CgV.V2 w = Except.error ())
  ∧ (∀ (w : World), w.cpuacctUsageV1 = Except.error () →
        getContainerCpuUsage CgV.V1 w = Except.error ())
  ∧ (∀ (w : World), w.cpuStatV2 = Except.error () →
        getContainerCpuUsage CgV.V2 w = Except.error ())
  ∧ (∀ (w : World), w.procStat = Except.error () → getSystemCpuUsage w = Except.error ())
  ∧ (∀ (w : World) (s : Str), w.procStat = Except.ok s →
        (splitNl s).find? (fun l => leadsWith ['c', 'p', 'u', ' '] l) = none →
        getSystemCpuUsage w = Except.error ())
  ∧ (∀ (w : World) (st : ProcState), w.isLambda = false → w.containerised = true →
        getCpuQuota (getCgroupsVersion w st).1 w = Except.error () →
        (getCpuInfo w st).1 = Except.error ())
  ∧ (∀ (w : World) (st : ProcState) (q : QuotaResult),
        w.isLambda = false → w.containerised = true →
        getCpuQuota (getCgroupsVersion w st).1 w = Except.ok q → q ≠ QuotaResult.null →
        getCpuPeriod (getCgroupsVersion w st).1 w = Except.error () →
        (getCpuInfo w st).1 = Except.error ())
  ∧ (∀ (w : World) (st : ProcState) (q : QuotaResult) (period : Option ℚ),
        w.isLambda = false → w.containerised = true →
        getCpuQuota (getCgroupsVersion w st).1 w = Except.ok q → q ≠ QuotaResult.null →
        getCpuPeriod (getCgroupsVersion w st).1 w = Except.ok period →
        sampleCpuUsage (getCgroupsVersion w st).1 w = Except.error () →
        (getCpuInfo w st).1 = Except.error ())
  ∧ (∀ (w : World) (s : Str), w.cpuStatV2 = Except.ok s →
        (∀ line, line ∈ splitNl s →
          (tokens (trimChars line)).head? ≠
            some ['u', 's', 'a', 'g', 'e', '_', 'u', 's', 'e', 'c']) →
        getContainerCpuUsage CgV.V2 w = Except.ok (some 0)) := by
  refine ⟨?_, ?_, ?_, ?_, ?_, ?_, ?_, ?_, ?_, ?_, ?_, ?_⟩
  · intro w h
    simp [getCpuQuota, h]
  · intro w h
    simp [getCpuQuota, h]
  · intro w h
    simp [getCpuPeriod, h]
  · intro w h
    simp [getCpuPeriod, h]
  · intro w h
    simp [getContainerCpuUsage, h]
  · intro w h
    simp [getContainerCpuUsage, h]
  · intro w h
    simp [getSystemCpuUsage, h]
  · intro w s hw hfind
    simp [getSystemCpuUsage, hw, hfind]
  · intro w st h1 h2 hq
    rw [getCpuInfo_quota_error w st h1 h2 hq]
  · intro w st q h1 h2 hq hne hp
    rw [getCpuInfo_quota_notNull w st q h1 h2 hq hne,
      allowanceBranch_period_error w _ _ _ hp]
  · intro w st q period h1 h2 hq hne hp hs
    rw [getCpuInfo_quota_notNull w st q h1 h2 hq hne,
      allowanceBranch_sample_error w _ _ _ period hp hs]
  · intro w s hw hnone
    have hu := usageUsecOf_no_match (splitNl s) hnone
    have h := getContainerCpuUsage_v2_eval w s 0 hw hu
    rw [h]
    norm_num

/-- A containerized V1 world whose quota file is unreadable. -/
def c3QuotaErrWorld : World :=
  { isLambda := false
    containerised := true
    memDirAccessible := true
    quotaV1 := Except.error ()
    periodV1 := Except.error ()
    cpuMaxV2 := Except.error ()
    cpuacctUsageV1 := Except.error ()
    cpuStatV2 := Except.error ()
    procStat := Except.error ()
    cores := [] }

/-- A world whose `/proc/stat` lacks the aggregate `cpu` line. -/
def c3NoCpuLineWorld : World :=
  { c3QuotaErrWorld with procStat := Except.ok "intr 0\nctxt 0".toList }

/-- Witness for the amended C3: an unreadable V1 quota file makes the whole
containerized `getCpuInfo` call fail; a `/proc/stat` without the aggregate
`cpu` line makes `getSystemCpuUsage` fail; and the `cpu.stat` file of
`c3StatWorld` (no `usage_usec` key) yields the silent `0`. -/
theorem c3_read_failures_propagate_witness :
    (getCpuInfo c3QuotaErrWorld initialState).1 = Except.error ()
  ∧ getSystemCpuUsage c3NoCpuLineWorld = Except.error ()
  ∧ getContainerCpuUsage CgV.V2 c3StatWorld = Except.ok (some 0) :=
  ⟨c3_read_failures_propagate.2.2.2.2.2.2.2.2.1 c3QuotaErrWorld initialState rfl rfl (by decide),
   c3_read_failures_propagate.2.2.2.2.2.2.2.1 c3NoCpuLineWorld ("intr 0\nctxt 0".toList)
     rfl (by decide),
   c3_read_failures_propagate.2.2.2.2.2.2.2.2.2.2.2 c3StatWorld
     ("nr_periods 4\nnr_throttled 0".toList) rfl (by decide)⟩

/-! ## Claim C1 -/

/-- The world for C1: containerized V2 host entitled to 2 of its 2 cores
(`cpu.max` = `200000 100000`), container usage 4e9 ns against a host-wide
usage of 4e9 ns — i.e. the container consumed exactly its full
entitlement, a true utilization ratio of 1. -/
def c1World : World :=
  { isLambda := false
    containerised := true
    memDirAccessible := false
    quotaV1 := Except.error ()
    periodV1 := Except.error ()
    cpuMaxV2 := Except.ok "200000 100000".toList
    cpuacctUsageV1 := Except.error ()
    cpuStatV2 := Except.ok "usage_usec 4000000".toList
    procStat := Except.ok "cpu 400 0 0 0 0 0 0".toList
    cores := [{ user := 100, nice := 0, sys := 0, idle := 100, irq := 0 },
              { user := 100, nice := 0, sys := 0, idle := 100, irq := 0 }] }

/-- Claim C1 fails on the code (code bug): in the containerized
finite-quota branch the value returned by `getCpuInfo` is on the
percentage scale, not the `[0, ~1+]` ratio scale the contract and the
aggregator assume.  At a full-entitlement load (true ratio 1) the call
returns `100`; the aggregator then multiplies by 100 again, reporting
`cpuCurrentUsage = 10000`, and compares `100` against a `maxUsedCpuRatio`
of `0.95`. -/
theorem c1_containerised_finite_quota_percent_scale :
    (getCpuInfo c1World initialState).1 = Except.ok (some 100)
  ∧ createCpuInfo (95 / 100) (getCpuInfo c1World initialState).1 =
      some (some 10000, true) := by
  have hc : getContainerCpuUsage (getCgroupsVersion c1World initialState).1 c1World =
      Except.ok (some 4000000000) := by
    have h := getContainerCpuUsage_v2_eval c1World ("usage_usec 4000000".toList)
      ((4000000 : Nat) : ℚ) rfl (by decide)
    rw [show (getCgroupsVersion c1World initialState).1 = CgV.V2 from rfl, h]
    norm_num
  have hsy : getSystemCpuUsage c1World = Except.ok (some 4000000000) := by
    have h := getSystemCpuUsage_eval c1World ("cpu 400 0 0 0 0 0 0".toList)
      ("cpu 400 0 0 0 0 0 0".toList)
      ("400".toList) ("0".toList) ("0".toList) ("0".toList) ("0".toList) ("0".toList)
      ("0".toList) 400 0 0 0 0 0 0
      rfl (by decide) (by decide) (by decide) (by decide) (by decide) (by decide)
      (by decide) (by decide) (by decide)
    rw [h]
    norm_num
  have h := getCpuInfo_finite_spec c1World initialState 200000 100000 4000000000 4000000000
    0 0 rfl rfl (by decide) (by decide) hc hsy rfl
    (by norm_num) (by norm_num) (by norm_num)
  constructor
  · rw [h]
    norm_num [c1World]
  · rw [h]
    norm_num [c1World, createCpuInfo, jmul, jgt]

/-! ## Claim C2 -/

/-- A bare-metal world whose single core has accumulated 10 idle of 100
total ticks since boot. -/
def c2WorldA : World :=
  { isLambda := false
    containerised := false
    memDirAccessible := false
    quotaV1 := Except.error ()
    periodV1 := Except.error ()
    cpuMaxV2 := Except.error ()
    cpuacctUsageV1 := Except.error ()
    cpuStatV2 := Except.error ()
    procStat := Except.error ()
    cores := [{ user := 90, nice := 0, sys := 0, idle := 10, irq := 0 }] }

/-- The same host observed later: 30 idle of 200 total ticks since boot
(so 20 idle of 100 total elapsed between the two observations). -/
def c2WorldB : World :=
  { c2WorldA with cores := [{ user := 170, nice := 0, sys := 0, idle := 30, irq := 0 }] }

/-- Claim C2 fails on the code (code bug): `previousTicks` is never
updated, so the second `getCurrentCpuTicks` call still subtracts the
initial zero baseline.  On the two observations above the second call
returns `1 - 30/200 = 17/20` (cumulative since boot) — not the
`1 - (30-10)/(200-100) = 4/5` that the claimed two-point delta would
give — and the state after the first call is unchanged, baseline
included. -/
theorem c2_tick_baseline_never_updated :
    getCpuInfo c2WorldA initialState = (Except.ok (some (9 / 10)), initialState)
  ∧ (getCpuInfo c2WorldB (getCpuInfo c2WorldA initialState).2).1 = Except.ok (some (17 / 20))
  ∧ (17 / 20 : ℚ) ≠ 1 - (30 - 10) / (200 - 100) := by
  have hA := getCpuInfo_bareMetal c2WorldA initialState rfl rfl
  have hB := getCpuInfo_bareMetal c2WorldB initialState rfl rfl
  have hTickA : getCurrentCpuTicks initialState.previousTicks c2WorldA.cores = 9 / 10 := by
    norm_num [getCurrentCpuTicks, initialState, c2WorldA, timesTotal]
  have hTickB : getCurrentCpuTicks initialState.previousTicks c2WorldB.cores = 17 / 20 := by
    norm_num [getCurrentCpuTicks, initialState, c2WorldA, c2WorldB, timesTotal]
  refine ⟨?_, ?_, by norm_num⟩
  · rw [hA, hTickA]
  · rw [hA]
    simp only []
    rw [hB, hTickB]

end Crawlee
